import Mathlib

set_option maxHeartbeats 1000000

namespace AztecWormhole

/-!
Shallow embedding of the proof-formatting pipeline
(`packages/frontend/app/ZKPassportHelper.tsx`), the polling confirmation
loop (`packages/frontend/app/page.tsx`), and the
`/api/get-arbitrum-message` route
(`packages/frontend/app/api/get-arbitrum-message/route.ts`) of the
aztec-wormhole-zkpassport repository.

External SDK functions (`@zkpassport/utils`, `@zkpassport/registry`,
`ethers`) are modelled as fields of explicit environment structures;
fallible JS code (functions that may throw) returns `Option`/`Except`.
JS `bigint` values are modelled as `Nat`.
-/

/-! ### JS string primitives -/

/-- Model of JS `String.prototype.toLowerCase` restricted to ASCII
(the circuit keywords and proof names are ASCII). -/
def lowerChar (c : Char) : Char :=
  if 65 ≤ c.toNat ∧ c.toNat ≤ 90 then Char.ofNat (c.toNat + 32) else c

def toLowerStr (s : String) : String :=
  ⟨s.data.map lowerChar⟩

/-- `charsContain h n` is true iff `n` occurs as a contiguous infix of `h`. -/
def charsContain : List Char → List Char → Bool
  | [], needle => needle.isEmpty
  | c :: t, needle => needle.isPrefixOf (c :: t) || charsContain t needle

/-- Model of JS `String.prototype.includes`. -/
def strIncludes (s sub : String) : Bool :=
  charsContain s.data sub.data

/-- JS truthiness of an optional string field: `undefined`/`null` and the
empty string are falsy. -/
def truthy : Option String → Bool
  | some s => s ≠ ""
  | none => false

/-! ### ZKPassportHelper data model -/

/-- The fields of `ProofResult` (from `@zkpassport/utils`) that
`ZKPassportHelper` reads.  All four are optional in the SDK type. -/
structure ProofResult where
  name : Option String := none
  version : Option String := none
  proof : Option String := none
  vkeyHash : Option String := none
deriving DecidableEq, Repr

/-- The six circuit roles A..F of `ZKPASSPORT_CONFIG.PROOF_KEYWORDS`. -/
inductive CircuitType
  | A | B | C | D | E | F
deriving DecidableEq, Repr

/-- `ZKPASSPORT_CONFIG.PROOF_KEYWORDS`. -/
def CircuitType.keyword : CircuitType → String
  | .A => "sig_check_dsc"
  | .B => "sig_check_id_data"
  | .C => "data_check_integrity"
  | .D => "inclusion_check_issuing_country"
  | .E => "disclose_bytes"
  | .F => "compare_age"

def CircuitType.letter : CircuitType → String
  | .A => "A"
  | .B => "B"
  | .C => "C"
  | .D => "D"
  | .E => "E"
  | .F => "F"

/-- `ZKPASSPORT_CONFIG.PROOF_SIZE`. -/
def PROOF_SIZE : Nat := 456

/-- `ZKPASSPORT_CONFIG.VKEY_SIZE`. -/
def VKEY_SIZE : Nat := 128

/-- `p.name?.toLowerCase().includes(kw.toLowerCase())`: an absent name
short-circuits to falsy. -/
def nameMatches (kw : String) (p : ProofResult) : Bool :=
  match p.name with
  | some n => strIncludes (toLowerStr n) (toLowerStr kw)
  | none => false

/-- The predicate used by `findProofsByKeywords` for circuit `ct`. -/
def roleMatcher (ct : CircuitType) : ProofResult → Bool :=
  nameMatches ct.keyword

/-- Result shape of `findProofsByKeywords`. -/
structure FoundProofs where
  proofA : Option ProofResult
  proofB : Option ProofResult
  proofC : Option ProofResult
  proofD : Option ProofResult
  proofE : Option ProofResult
  proofF : Option ProofResult
deriving DecidableEq, Repr

/-- `ZKPassportHelper.findProofsByKeywords`: for each role, the first
artifact whose name contains the role keyword (case-insensitively). -/
def findProofsByKeywords (proofs : List ProofResult) : FoundProofs where
  proofA := proofs.find? (roleMatcher .A)
  proofB := proofs.find? (roleMatcher .B)
  proofC := proofs.find? (roleMatcher .C)
  proofD := proofs.find? (roleMatcher .D)
  proofE := proofs.find? (roleMatcher .E)
  proofF := proofs.find? (roleMatcher .F)

def FoundProofs.slot (f : FoundProofs) : CircuitType → Option ProofResult
  | .A => f.proofA
  | .B => f.proofB
  | .C => f.proofC
  | .D => f.proofD
  | .E => f.proofE
  | .F => f.proofF

/-- The role-detection step of `validateProofOrder`. -/
def detectRole (p : ProofResult) : String :=
  match p.name with
  | none => "unknown"
  | some n =>
    let low := toLowerStr n
    if strIncludes low (toLowerStr (CircuitType.keyword .A)) then CircuitType.keyword .A
    else if strIncludes low (toLowerStr (CircuitType.keyword .B)) then CircuitType.keyword .B
    else if strIncludes low (toLowerStr (CircuitType.keyword .C)) then CircuitType.keyword .C
    else if strIncludes low (toLowerStr (CircuitType.keyword .D)) then CircuitType.keyword .D
    else if strIncludes low (toLowerStr (CircuitType.keyword .E)) then CircuitType.keyword .E
    else if strIncludes low (toLowerStr (CircuitType.keyword .F)) then CircuitType.keyword .F
    else "unknown"

/-- `ZKPassportHelper.validateProofOrder`: compares the detected role of
each position against the fixed expected order; `true` iff all positions
up to the shorter length agree.  Its result is discarded by the caller. -/
def validateProofOrder (proofs : List ProofResult) : Bool :=
  let expectedProofOrder :=
    [CircuitType.keyword .A, CircuitType.keyword .B, CircuitType.keyword .C,
     CircuitType.keyword .D, CircuitType.keyword .E, CircuitType.keyword .F]
  let detectedOrder := proofs.map detectRole
  (List.range (min detectedOrder.length expectedProofOrder.length)).all
    (fun i => detectedOrder.getD i "" == expectedProofOrder.getD i "")

/-- The `console.error` line `logMissingProofs` emits for a missing role. -/
def missingProofLine : CircuitType → String
  | .A => "- Missing DSC proof (Circuit A)"
  | .B => "- Missing ID Data proof (Circuit B)"
  | .C => "- Missing Integrity proof (Circuit C)"
  | .D => "- Missing Country proof (Circuit D)"
  | .E => "- Missing Disclosure proof (Circuit E)"
  | .F => "- Missing Age proof (Circuit F)"

/-- `ZKPassportHelper.logMissingProofs`, modelled as the list of
`console.error` lines it prints. -/
def logMissingProofs (pA pB pC pD pE pF : Option ProofResult) : List String :=
  ["Missing required proofs:"]
  ++ (if pA.isNone then [missingProofLine .A] else [])
  ++ (if pB.isNone then [missingProofLine .B] else [])
  ++ (if pC.isNone then [missingProofLine .C] else [])
  ++ (if pD.isNone then [missingProofLine .D] else [])
  ++ (if pE.isNone then [missingProofLine .E] else [])
  ++ (if pF.isNone then [missingProofLine .F] else [])

/-! ### Formatted proof structures -/

structure SubCircuitProof where
  vkey : List Nat
  proof : List Nat
  public_inputs : List Nat
  vkey_hash : Nat
  commitments : List Nat
deriving DecidableEq, Repr

structure ContractVkeys where
  vkey_a : List Nat
  vkey_b : List Nat
  vkey_c : List Nat
  vkey_d : List Nat
  vkey_e : List Nat
  vkey_f : List Nat
deriving DecidableEq, Repr

structure ContractProofs where
  proof_a : List Nat
  proof_b : List Nat
  proof_c : List Nat
  proof_d : List Nat
  proof_e : List Nat
  proof_f : List Nat
deriving DecidableEq, Repr

structure ContractVkeyHashes where
  vkey_hash_a : Nat
  vkey_hash_b : Nat
  vkey_hash_c : Nat
  vkey_hash_d : Nat
  vkey_hash_e : Nat
  vkey_hash_f : Nat
deriving DecidableEq, Repr

structure ContractPublicInputs where
  input_a : List Nat
  input_b : List Nat
  input_c : List Nat
  input_d : List Nat
  input_e : List Nat
  input_f : List Nat
deriving DecidableEq, Repr

structure ContractProofData where
  vkeys : ContractVkeys
  proofs : ContractProofs
  vkey_hashes : ContractVkeyHashes
  public_inputs : ContractPublicInputs
deriving DecidableEq, Repr

/-- `ZKPassportHelper.createContractProofData`: assembles the final
contract data from the six formatted sub-circuit proofs.  Note that the
`commitments` field of each `SubCircuitProof` is dropped. -/
def createContractProofData (fA fB fC fD fE fF : SubCircuitProof) : ContractProofData where
  vkeys :=
    { vkey_a := fA.vkey, vkey_b := fB.vkey, vkey_c := fC.vkey,
      vkey_d := fD.vkey, vkey_e := fE.vkey, vkey_f := fF.vkey }
  proofs :=
    { proof_a := fA.proof, proof_b := fB.proof, proof_c := fC.proof,
      proof_d := fD.proof, proof_e := fE.proof, proof_f := fF.proof }
  vkey_hashes :=
    { vkey_hash_a := fA.vkey_hash, vkey_hash_b := fB.vkey_hash,
      vkey_hash_c := fC.vkey_hash, vkey_hash_d := fD.vkey_hash,
      vkey_hash_e := fE.vkey_hash, vkey_hash_f := fF.vkey_hash }
  public_inputs :=
    { input_a := fA.public_inputs, input_b := fB.public_inputs,
      input_c := fC.public_inputs, input_d := fD.public_inputs,
      input_e := fE.public_inputs, input_f := fF.public_inputs }

/-! ### External SDK environment -/

/-- Token for the SDK `CircuitManifest` value fetched from the registry;
its contents are never inspected by the helper. -/
structure CircuitManifest where
  tag : String
deriving DecidableEq, Repr

/-- The part of the registry's packaged circuit that the helper reads. -/
structure PackagedCircuit where
  vkey : Option String
deriving DecidableEq, Repr

/-- Result of the SDK `getProofData`: the proof as hex strings plus the
public inputs (modelled directly as field elements). -/
structure ProofData where
  proof : List String
  publicInputs : List Nat
deriving DecidableEq, Repr

/-- External functions used by `ZKPassportHelper`, modelled as an explicit
environment.  Functions that can throw in JS return `Option`/`Except`. -/
structure ZKEnv where
  getProofData : Option String → Nat → Option ProofData
  getNumberOfPublicInputs : Option String → Nat
  getPackagedCircuit : Option String → CircuitManifest → Option PackagedCircuit
  ultraVkToFields : String → List String
  bigIntOfString : String → Option Nat
  getCircuitManifest : Option String → Except String CircuitManifest
  getMerkleRootFromDSCProof : ProofData → Option Nat
  getCommitmentFromDSCProof : ProofData → Option Nat
  getCommitmentInFromIDDataProof : ProofData → Option Nat
  getCommitmentOutFromIDDataProof : ProofData → Option Nat
  getCommitmentInFromIntegrityProof : ProofData → Option Nat
  getCommitmentOutFromIntegrityProof : ProofData → Option Nat
  getCommitmentInFromDisclosureProof : ProofData → Option Nat
  getNullifierFromDisclosureProof : ProofData → Option Nat

/-- `BigInt(hexStr.startsWith("0x") ? hexStr : "0x" + hexStr)`. -/
def parseBigIntHex (env : ZKEnv) (hexStr : String) : Option Nat :=
  env.bigIntOfString (if hexStr.startsWith "0x" then hexStr else "0x" ++ hexStr)

/-- `ZKPassportHelper.proofToBigIntArray`; a `BigInt` conversion failure
anywhere in the array throws, modelled by `Option.none`. -/
def proofToBigIntArray (env : ZKEnv) (proof : List String) : Option (List Nat) :=
  proof.mapM (parseBigIntHex env)

/-- `ZKPassportHelper.validateProofResult` as the boolean it checks;
the source throws when this is false. -/
def validateProofResult (pr : ProofResult) : Bool :=
  truthy pr.name && truthy pr.vkeyHash && truthy pr.version && truthy pr.proof

/-- `ZKPassportHelper.getCircuitVerificationKey`: returns the vkey field
elements and the vkey hash string, or `none` on any caught error. -/
def getCircuitVerificationKey (env : ZKEnv) (manifest : CircuitManifest)
    (pr : ProofResult) : Option (List Nat × String) :=
  if !validateProofResult pr then none
  else
    match env.getPackagedCircuit pr.name manifest with
    | none => none
    | some pc =>
      match pc.vkey with
      | none => none
      | some vk =>
        if vk = "" then none
        else
          match (env.ultraVkToFields vk).mapM (parseBigIntHex env) with
          | none => none
          | some vkeyFields => some (vkeyFields, pr.vkeyHash.getD "")

/-! ### validateProofData and its error messages -/

def invalidVkeyMsg (ct : CircuitType) (got : Nat) : String :=
  "Invalid vkey size for circuit " ++ ct.letter ++ ": expected "
    ++ toString VKEY_SIZE ++ ", got " ++ toString got

def invalidProofMsg (ct : CircuitType) (got : Nat) : String :=
  "Invalid proof size for circuit " ++ ct.letter ++ ": expected "
    ++ toString PROOF_SIZE ++ ", got " ++ toString got

def invalidPublicInputsMsg (ct : CircuitType) (got : Nat) : String :=
  "Invalid public inputs size for circuit " ++ ct.letter
    ++ ": expected 2, 5, or 10, got " ++ toString got

def invalidCommitmentsMsg (ct : CircuitType) (got : Nat) : String :=
  "Invalid commitments size for circuit " ++ ct.letter
    ++ ": expected 2, got " ++ toString got

/-- `ZKPassportHelper.validateProofData`: the four sequential length
checks, each throwing a descriptive error. -/
def validateProofData (vkey formattedProofData publicInputs commitments : List Nat)
    (circuitType : CircuitType) : Except String Unit :=
  if vkey.length ≠ VKEY_SIZE then
    .error (invalidVkeyMsg circuitType vkey.length)
  else if formattedProofData.length ≠ PROOF_SIZE then
    .error (invalidProofMsg circuitType formattedProofData.length)
  else if !([2, 5, 10].contains publicInputs.length) then
    .error (invalidPublicInputsMsg circuitType publicInputs.length)
  else if commitments.length ≠ 2 then
    .error (invalidCommitmentsMsg circuitType commitments.length)
  else .ok ()

/-- `ZKPassportHelper.extractCommitments`: public inputs are passed
through; the two commitment values are produced by circuit-type-specific
SDK getters (which may throw).  Circuits D, E and F all use the
disclosure-proof getters. -/
def extractCommitments (env : ZKEnv) (proofData : ProofData)
    (circuitType : CircuitType) : Except String (List Nat × List Nat) :=
  let publicInputs := proofData.publicInputs
  match circuitType with
  | .A =>
    match env.getMerkleRootFromDSCProof proofData with
    | none => .error "extraction failed"
    | some root =>
      match env.getCommitmentFromDSCProof proofData with
      | none => .error "extraction failed"
      | some commitment => .ok (publicInputs, [root, commitment])
  | .B =>
    match env.getCommitmentInFromIDDataProof proofData with
    | none => .error "extraction failed"
    | some cIn =>
      match env.getCommitmentOutFromIDDataProof proofData with
      | none => .error "extraction failed"
      | some cOut => .ok (publicInputs, [cIn, cOut])
  | .C =>
    match env.getCommitmentInFromIntegrityProof proofData with
    | none => .error "extraction failed"
    | some cIn =>
      match env.getCommitmentOutFromIntegrityProof proofData with
      | none => .error "extraction failed"
      | some cOut => .ok (publicInputs, [cIn, cOut])
  | .D =>
    match env.getCommitmentInFromDisclosureProof proofData with
    | none => .error "extraction failed"
    | some cIn =>
      match env.getNullifierFromDisclosureProof proofData with
      | none => .error "extraction failed"
      | some nf => .ok (publicInputs, [cIn, nf])
  | .E =>
    match env.getCommitmentInFromDisclosureProof proofData with
    | none => .error "extraction failed"
    | some cIn =>
      match env.getNullifierFromDisclosureProof proofData with
      | none => .error "extraction failed"
      | some nf => .ok (publicInputs, [cIn, nf])
  | .F =>
    match env.getCommitmentInFromDisclosureProof proofData with
    | none => .error "extraction failed"
    | some cIn =>
      match env.getNullifierFromDisclosureProof proofData with
      | none => .error "extraction failed"
      | some nf => .ok (publicInputs, [cIn, nf])

/-- The error `formatSubCircuit` rethrows for any caught failure. -/
def subCircuitFailMsg (ct : CircuitType) : String :=
  "Failed to format SubCircuit" ++ ct.letter ++ ": Invalid or missing data"

/-- `ZKPassportHelper.formatSubCircuit`: decode the proof, fetch the
verification key, extract commitments, validate, and assemble the
`SubCircuitProof`; any caught error is rethrown as `subCircuitFailMsg`. -/
def formatSubCircuit (env : ZKEnv) (manifest : CircuitManifest)
    (proofResult : ProofResult) (circuitType : CircuitType) :
    Except String SubCircuitProof :=
  match env.getProofData proofResult.proof
      (env.getNumberOfPublicInputs proofResult.name) with
  | none => .error (subCircuitFailMsg circuitType)
  | some proofData =>
    match proofToBigIntArray env proofData.proof with
    | none => .error (subCircuitFailMsg circuitType)
    | some formattedProofData =>
      match getCircuitVerificationKey env manifest proofResult with
      | none => .error (subCircuitFailMsg circuitType)
      | some fetchedVkey =>
        match extractCommitments env proofData circuitType with
        | .error _ => .error (subCircuitFailMsg circuitType)
        | .ok pc =>
          match validateProofData fetchedVkey.fst formattedProofData pc.fst pc.snd circuitType with
          | .error _ => .error (subCircuitFailMsg circuitType)
          | .ok _ =>
            match env.bigIntOfString fetchedVkey.snd with
            | none => .error (subCircuitFailMsg circuitType)
            | some vkHash =>
              .ok { vkey := fetchedVkey.fst, proof := formattedProofData,
                    public_inputs := pc.fst, vkey_hash := vkHash,
                    commitments := pc.snd }

/-! ### formatProofsForContract -/

/-- `ZKPassportHelper.formatProofsForContract`, parameterized by the
per-sub-circuit formatting function and the registry manifest fetch
(both of which perform network calls in the source).  Any thrown error
is caught and turned into `none`. -/
def formatProofsForContract
    (fmt : CircuitManifest → ProofResult → CircuitType → Except String SubCircuitProof)
    (getCircuitManifest : Option String → Except String CircuitManifest)
    (proofs : List ProofResult) : Option ContractProofData :=
  if proofs.length ≠ 6 then none
  else
    match (findProofsByKeywords proofs).proofA, (findProofsByKeywords proofs).proofB,
          (findProofsByKeywords proofs).proofC, (findProofsByKeywords proofs).proofD,
          (findProofsByKeywords proofs).proofE, (findProofsByKeywords proofs).proofF with
    | some pA, some pB, some pC, some pD, some pE, some pF =>
      let _ordered := validateProofOrder [pA, pB, pC, pD, pE, pF]
      match getCircuitManifest pA.version with
      | .error _ => none
      | .ok manifest =>
        match fmt manifest pA .A, fmt manifest pB .B, fmt manifest pC .C,
              fmt manifest pD .D, fmt manifest pE .E, fmt manifest pF .F with
        | .ok fA, .ok fB, .ok fC, .ok fD, .ok fE, .ok fF =>
          some (createContractProofData fA fB fC fD fE fF)
        | _, _, _, _, _, _ => none
    | _, _, _, _, _, _ => none

/-- The full pipeline with the concrete `formatSubCircuit`. -/
def formatProofsForContractFull (env : ZKEnv) (proofs : List ProofResult) :
    Option ContractProofData :=
  formatProofsForContract (formatSubCircuit env) env.getCircuitManifest proofs

/-! ### C4: arrays whose length is not 6 are rejected outright -/

/-- C4: for every input array whose length is not exactly 6,
`formatProofsForContract` returns `undefined` regardless of the
formatting function and registry (hence without any classification,
registry fetch, or formatting). -/
theorem c4_exactly_six_proofs_required (proofs : List ProofResult)
    (h : proofs.length ≠ 6) :
    ∀ fmt getManifest, formatProofsForContract fmt getManifest proofs = none := by
  intro fmt getManifest
  simp [formatProofsForContract, h]

/-! ### C1: a missing role aborts formatting and is named in the log -/

/-- C1: for every array of six artifacts in which at least one required
circuit role has no artifact whose name contains that role's keyword as a
case-insensitive substring, `formatProofsForContract` returns `undefined`
(for any formatting function and registry), and the missing-proof
diagnostic of `logMissingProofs` names every unfound role. -/
theorem c1_missing_role_aborts_and_is_logged
    (fmt : CircuitManifest → ProofResult → CircuitType → Except String SubCircuitProof)
    (getManifest : Option String → Except String CircuitManifest)
    (proofs : List ProofResult) (h6 : proofs.length = 6)
    (hmiss : ∃ ct : CircuitType, (findProofsByKeywords proofs).slot ct = none) :
    formatProofsForContract fmt getManifest proofs = none ∧
      ∀ ct : CircuitType, (findProofsByKeywords proofs).slot ct = none →
        missingProofLine ct ∈
          logMissingProofs (findProofsByKeywords proofs).proofA
            (findProofsByKeywords proofs).proofB (findProofsByKeywords proofs).proofC
            (findProofsByKeywords proofs).proofD (findProofsByKeywords proofs).proofE
            (findProofsByKeywords proofs).proofF := by
  constructor
  · obtain ⟨ct, hct⟩ := hmiss
    unfold formatProofsForContract
    rw [if_neg (fun h => h h6)]
    cases hA : (findProofsByKeywords proofs).proofA <;>
      cases hB : (findProofsByKeywords proofs).proofB <;>
        cases hC : (findProofsByKeywords proofs).proofC <;>
          cases hD : (findProofsByKeywords proofs).proofD <;>
            cases hE : (findProofsByKeywords proofs).proofE <;>
              cases hF : (findProofsByKeywords proofs).proofF <;>
                first
                  | rfl
                  | (cases ct <;> simp_all [FoundProofs.slot])
  · intro ct hct
    cases ct <;> simp_all [FoundProofs.slot, logMissingProofs]

theorem c1_missing_role_aborts_and_is_logged_witness :
    ([⟨some "sig_check_dsc", none, none, none⟩, ⟨some "sig_check_id_data", none, none, none⟩,
      ⟨some "data_check_integrity", none, none, none⟩,
      ⟨some "inclusion_check_issuing_country", none, none, none⟩,
      ⟨some "disclose_bytes", none, none, none⟩,
      ⟨some "mystery_proof", none, none, none⟩] : List ProofResult).length = 6 ∧
    (∃ ct : CircuitType,
      (findProofsByKeywords
        [⟨some "sig_check_dsc", none, none, none⟩, ⟨some "sig_check_id_data", none, none, none⟩,
         ⟨some "data_check_integrity", none, none, none⟩,
         ⟨some "inclusion_check_issuing_country", none, none, none⟩,
         ⟨some "disclose_bytes", none, none, none⟩,
         ⟨some "mystery_proof", none, none, none⟩]).slot ct = none) ∧
    formatProofsForContract (fun _ _ ct => .error (subCircuitFailMsg ct))
      (fun _ => .ok ⟨"manifest"⟩)
      [⟨some "sig_check_dsc", none, none, none⟩, ⟨some "sig_check_id_data", none, none, none⟩,
       ⟨some "data_check_integrity", none, none, none⟩,
       ⟨some "inclusion_check_issuing_country", none, none, none⟩,
       ⟨some "disclose_bytes", none, none, none⟩,
       ⟨some "mystery_proof", none, none, none⟩] = none :=
  ⟨by decide, ⟨.F, by decide⟩,
    (c1_missing_role_aborts_and_is_logged _ _ _ (by decide) ⟨.F, by decide⟩).1⟩

theorem c4_exactly_six_proofs_required_witness :
    ([] : List ProofResult).length ≠ 6 ∧
      ∀ fmt getManifest, formatProofsForContract fmt getManifest [] = none :=
  ⟨by decide, c4_exactly_six_proofs_required [] (by decide)⟩

/-! ### C5: the order check is diagnostic only -/

lemma find?_eq_some_of_countP_eq_one {α : Type} {p : α → Bool} {l : List α} {a : α}
    (h1 : l.countP p = 1) (ha : a ∈ l) (hpa : p a = true) :
    l.find? p = some a := by
  induction l with
  | nil => cases ha
  | cons b t ih =>
    by_cases hb : p b = true
    · rw [List.find?_cons_of_pos _ hb]
      rcases List.mem_cons.mp ha with rfl | hat
      · rfl
      · exfalso
        rw [List.countP_cons] at h1
        simp only [hb, if_true] at h1
        have ht : t.countP p = 0 := by omega
        exact List.countP_eq_zero.mp ht a hat hpa
    · rw [List.find?_cons_of_neg _ hb]
      rcases List.mem_cons.mp ha with rfl | hat
      · exact absurd hpa hb
      · rw [List.countP_cons] at h1
        simp only [hb, if_false] at h1
        exact ih h1 hat

lemma find?_perm_of_countP_eq_one {α : Type} {p : α → Bool} {l₁ l₂ : List α}
    (hperm : l₁.Perm l₂) (h1 : l₁.countP p = 1) :
    l₁.find? p = l₂.find? p := by
  have h2 : l₂.countP p = 1 := (hperm.countP_eq p) ▸ h1
  obtain ⟨a, ha, hpa⟩ := List.countP_pos_iff.mp (show 0 < l₁.countP p by omega)
  rw [find?_eq_some_of_countP_eq_one h1 ha hpa,
    find?_eq_some_of_countP_eq_one h2 (hperm.mem_iff.mp ha) hpa]

lemma findProofsByKeywords_perm {proofs₁ proofs₂ : List ProofResult}
    (hperm : proofs₁.Perm proofs₂)
    (huniq : ∀ ct : CircuitType, proofs₁.countP (roleMatcher ct) = 1) :
    findProofsByKeywords proofs₁ = findProofsByKeywords proofs₂ := by
  have hA := find?_perm_of_countP_eq_one hperm (huniq .A)
  have hB := find?_perm_of_countP_eq_one hperm (huniq .B)
  have hC := find?_perm_of_countP_eq_one hperm (huniq .C)
  have hD := find?_perm_of_countP_eq_one hperm (huniq .D)
  have hE := find?_perm_of_countP_eq_one hperm (huniq .E)
  have hF := find?_perm_of_countP_eq_one hperm (huniq .F)
  simp [findProofsByKeywords, hA, hB, hC, hD, hE, hF]

/-- C5: the proof-order check is purely diagnostic and never enforced:
when each required role keyword matches exactly one artifact, the value
returned by `formatProofsForContract` is the same for any permutation of
the input array (the boolean result of `validateProofOrder` is
discarded). -/
theorem c5_result_independent_of_proof_order
    (fmt : CircuitManifest → ProofResult → CircuitType → Except String SubCircuitProof)
    (getManifest : Option String → Except String CircuitManifest)
    (proofs₁ proofs₂ : List ProofResult)
    (hperm : proofs₁.Perm proofs₂) (_h6 : proofs₁.length = 6)
    (huniq : ∀ ct : CircuitType, proofs₁.countP (roleMatcher ct) = 1) :
    formatProofsForContract fmt getManifest proofs₁ =
      formatProofsForContract fmt getManifest proofs₂ := by
  have hfind := findProofsByKeywords_perm hperm huniq
  have hlen := hperm.length_eq
  unfold formatProofsForContract
  rw [hlen, hfind]

theorem c5_result_independent_of_proof_order_witness :
    formatProofsForContract (fun _ _ ct => Except.error (subCircuitFailMsg ct))
      (fun _ => Except.ok ⟨"manifest"⟩)
      [⟨some "compare_age", none, none, none⟩, ⟨some "disclose_bytes", none, none, none⟩,
       ⟨some "inclusion_check_issuing_country", none, none, none⟩,
       ⟨some "data_check_integrity", none, none, none⟩,
       ⟨some "sig_check_id_data", none, none, none⟩,
       ⟨some "sig_check_dsc", none, none, none⟩] =
    formatProofsForContract (fun _ _ ct => Except.error (subCircuitFailMsg ct))
      (fun _ => Except.ok ⟨"manifest"⟩)
      [⟨some "sig_check_dsc", none, none, none⟩, ⟨some "sig_check_id_data", none, none, none⟩,
       ⟨some "data_check_integrity", none, none, none⟩,
       ⟨some "inclusion_check_issuing_country", none, none, none⟩,
       ⟨some "disclose_bytes", none, none, none⟩,
       ⟨some "compare_age", none, none, none⟩] :=
  c5_result_independent_of_proof_order _ _ _ _ (by decide) (by decide)
    (by intro ct; cases ct <;> decide)

/-! ### C3: the 6-circuit pipeline never checks the commitment chain -/

def isOkB {ε α : Type} : Except ε α → Bool
  | .ok _ => true
  | .error _ => false

/-- Relates two sub-circuit formatting outcomes that agree on everything
except possibly the extracted commitment values. -/
def SubRel : Except String SubCircuitProof → Except String SubCircuitProof → Prop
  | .error e₁, .error e₂ => e₁ = e₂
  | .ok a, .ok b =>
      a.vkey = b.vkey ∧ a.proof = b.proof ∧ a.public_inputs = b.public_inputs ∧
        a.vkey_hash = b.vkey_hash
  | _, _ => False

lemma subRelCases {x y : Except String SubCircuitProof} (h : SubRel x y) :
    (∃ e, x = .error e ∧ y = .error e) ∨
      (∃ a b, x = .ok a ∧ y = .ok b ∧ a.vkey = b.vkey ∧ a.proof = b.proof ∧
        a.public_inputs = b.public_inputs ∧ a.vkey_hash = b.vkey_hash) := by
  cases x <;> cases y <;> simp_all [SubRel]

lemma createContractProofData_congr {a₁ a₂ a₃ a₄ a₅ a₆ b₁ b₂ b₃ b₄ b₅ b₆ : SubCircuitProof}
    (h₁ : a₁.vkey = b₁.vkey ∧ a₁.proof = b₁.proof ∧ a₁.public_inputs = b₁.public_inputs ∧
      a₁.vkey_hash = b₁.vkey_hash)
    (h₂ : a₂.vkey = b₂.vkey ∧ a₂.proof = b₂.proof ∧ a₂.public_inputs = b₂.public_inputs ∧
      a₂.vkey_hash = b₂.vkey_hash)
    (h₃ : a₃.vkey = b₃.vkey ∧ a₃.proof = b₃.proof ∧ a₃.public_inputs = b₃.public_inputs ∧
      a₃.vkey_hash = b₃.vkey_hash)
    (h₄ : a₄.vkey = b₄.vkey ∧ a₄.proof = b₄.proof ∧ a₄.public_inputs = b₄.public_inputs ∧
      a₄.vkey_hash = b₄.vkey_hash)
    (h₅ : a₅.vkey = b₅.vkey ∧ a₅.proof = b₅.proof ∧ a₅.public_inputs = b₅.public_inputs ∧
      a₅.vkey_hash = b₅.vkey_hash)
    (h₆ : a₆.vkey = b₆.vkey ∧ a₆.proof = b₆.proof ∧ a₆.public_inputs = b₆.public_inputs ∧
      a₆.vkey_hash = b₆.vkey_hash) :
    createContractProofData a₁ a₂ a₃ a₄ a₅ a₆ = createContractProofData b₁ b₂ b₃ b₄ b₅ b₆ := by
  obtain ⟨v₁, p₁, i₁, k₁⟩ := h₁
  obtain ⟨v₂, p₂, i₂, k₂⟩ := h₂
  obtain ⟨v₃, p₃, i₃, k₃⟩ := h₃
  obtain ⟨v₄, p₄, i₄, k₄⟩ := h₄
  obtain ⟨v₅, p₅, i₅, k₅⟩ := h₅
  obtain ⟨v₆, p₆, i₆, k₆⟩ := h₆
  simp [createContractProofData, v₁, p₁, i₁, k₁, v₂, p₂, i₂, k₂, v₃, p₃, i₃, k₃,
    v₄, p₄, i₄, k₄, v₅, p₅, i₅, k₅, v₆, p₆, i₆, k₆]

lemma formatProofsForContract_congr
    {fmt₁ fmt₂ : CircuitManifest → ProofResult → CircuitType → Except String SubCircuitProof}
    (gm : Option String → Except String CircuitManifest)
    (h : ∀ m pr ct, SubRel (fmt₁ m pr ct) (fmt₂ m pr ct)) :
    ∀ proofs, formatProofsForContract fmt₁ gm proofs = formatProofsForContract fmt₂ gm proofs := by
  intro proofs
  unfold formatProofsForContract
  by_cases h6 : proofs.length ≠ 6
  · rw [if_pos h6, if_pos h6]
  · rw [if_neg h6, if_neg h6]
    generalize (findProofsByKeywords proofs).proofA = oA
    generalize (findProofsByKeywords proofs).proofB = oB
    generalize (findProofsByKeywords proofs).proofC = oC
    generalize (findProofsByKeywords proofs).proofD = oD
    generalize (findProofsByKeywords proofs).proofE = oE
    generalize (findProofsByKeywords proofs).proofF = oF
    cases oA <;> cases oB <;> cases oC <;> cases oD <;> cases oE <;> cases oF <;> try rfl
    rename_i pA pB pC pD pE pF
    dsimp only
    cases gm pA.version with
    | error e => rfl
    | ok m =>
      dsimp only
      rcases subRelCases (h m pA .A) with ⟨eA, hx, hy⟩ | ⟨fA, gA, hx, hy, hrA⟩ <;>
        rw [hx, hy] <;> try rfl
      rcases subRelCases (h m pB .B) with ⟨eB, hx, hy⟩ | ⟨fB, gB, hx, hy, hrB⟩ <;>
        rw [hx, hy] <;> try rfl
      rcases subRelCases (h m pC .C) with ⟨eC, hx, hy⟩ | ⟨fC, gC, hx, hy, hrC⟩ <;>
        rw [hx, hy] <;> try rfl
      rcases subRelCases (h m pD .D) with ⟨eD, hx, hy⟩ | ⟨fD, gD, hx, hy, hrD⟩ <;>
        rw [hx, hy] <;> try rfl
      rcases subRelCases (h m pE .E) with ⟨eE, hx, hy⟩ | ⟨fE, gE, hx, hy, hrE⟩ <;>
        rw [hx, hy] <;> try rfl
      rcases subRelCases (h m pF .F) with ⟨eF, hx, hy⟩ | ⟨fF, gF, hx, hy, hrF⟩ <;>
        rw [hx, hy] <;> try rfl
      exact congrArg some (createContractProofData_congr hrA hrB hrC hrD hrE hrF)

lemma extractCommitments_ok_shape {env : ZKEnv} {pd : ProofData} {ct : CircuitType}
    {p : List Nat × List Nat} (h : extractCommitments env pd ct = .ok p) :
    p.1 = pd.publicInputs ∧ p.2.length = 2 := by
  cases ct <;> simp only [extractCommitments] at h <;> (repeat' split at h) <;>
    cases h <;> exact ⟨rfl, rfl⟩

lemma validateProofData_commitments_congr {vk fp pubs : List Nat} {c₁ c₂ : List Nat}
    {ct : CircuitType} (hlen : c₁.length = c₂.length) :
    validateProofData vk fp pubs c₁ ct = validateProofData vk fp pubs c₂ ct := by
  unfold validateProofData
  rw [hlen]

lemma parseBigIntHex_congr {e₁ e₂ : ZKEnv} (hbig : e₂.bigIntOfString = e₁.bigIntOfString) :
    parseBigIntHex e₂ = parseBigIntHex e₁ := by
  funext s
  unfold parseBigIntHex
  rw [hbig]

lemma getCircuitVerificationKey_congr {e₁ e₂ : ZKEnv}
    (hgpc : e₂.getPackagedCircuit = e₁.getPackagedCircuit)
    (hvk : e₂.ultraVkToFields = e₁.ultraVkToFields)
    (hbig : e₂.bigIntOfString = e₁.bigIntOfString) :
    ∀ m pr, getCircuitVerificationKey e₂ m pr = getCircuitVerificationKey e₁ m pr := by
  intro m pr
  unfold getCircuitVerificationKey
  rw [hgpc, hvk, parseBigIntHex_congr hbig]

lemma formatSubCircuit_subRel {e₁ e₂ : ZKEnv}
    (hgpd : e₂.getProofData = e₁.getProofData)
    (hnpi : e₂.getNumberOfPublicInputs = e₁.getNumberOfPublicInputs)
    (hgpc : e₂.getPackagedCircuit = e₁.getPackagedCircuit)
    (hvk : e₂.ultraVkToFields = e₁.ultraVkToFields)
    (hbig : e₂.bigIntOfString = e₁.bigIntOfString)
    (hx : ∀ pd ct, isOkB (extractCommitments e₁ pd ct) = isOkB (extractCommitments e₂ pd ct)) :
    ∀ m pr ct, SubRel (formatSubCircuit e₁ m pr ct) (formatSubCircuit e₂ m pr ct) := by
  intro m pr ct
  unfold formatSubCircuit
  rw [hgpd, hnpi]
  cases hpd : e₁.getProofData pr.proof (e₁.getNumberOfPublicInputs pr.name) with
  | none => simp [SubRel, hpd]
  | some pd =>
    simp only [hpd]
    have hptb : proofToBigIntArray e₂ = proofToBigIntArray e₁ := by
      funext l
      unfold proofToBigIntArray
      rw [parseBigIntHex_congr hbig]
    rw [hptb]
    cases hfp : proofToBigIntArray e₁ pd.proof with
    | none => simp [SubRel, hfp]
    | some fp =>
      simp only [hfp]
      rw [getCircuitVerificationKey_congr hgpc hvk hbig]
      cases hfv : getCircuitVerificationKey e₁ m pr with
      | none => simp [SubRel, hfv]
      | some fv =>
        simp only [hfv]
        rw [hbig]
        have hx' := hx pd ct
        cases hx1 : extractCommitments e₁ pd ct with
        | error err₁ =>
          cases hx2 : extractCommitments e₂ pd ct with
          | error err₂ => simp [SubRel, hx1, hx2]
          | ok p₂ => rw [hx1, hx2] at hx'; simp [isOkB] at hx'
        | ok p₁ =>
          cases hx2 : extractCommitments e₂ pd ct with
          | error err₂ => rw [hx1, hx2] at hx'; simp [isOkB] at hx'
          | ok p₂ =>
            simp only [hx1, hx2]
            obtain ⟨hpub₁, hlen₁⟩ := extractCommitments_ok_shape hx1
            obtain ⟨hpub₂, hlen₂⟩ := extractCommitments_ok_shape hx2
            have hval : validateProofData fv.1 fp p₁.1 p₁.2 ct =
                validateProofData fv.1 fp p₂.1 p₂.2 ct := by
              rw [hpub₁, hpub₂]
              exact validateProofData_commitments_congr (by rw [hlen₁, hlen₂])
            rw [hval]
            cases hvd : validateProofData fv.1 fp p₂.1 p₂.2 ct with
            | error e => simp [SubRel, hvd]
            | ok u =>
              simp only [hvd]
              cases hbi : e₁.bigIntOfString fv.2 with
              | none => simp [SubRel, hbi]
              | some vh => simp [SubRel, hbi, hpub₁, hpub₂]

/-- C3: the 6-circuit variant of `formatProofsForContract` performs no
commitment-chain validation: replacing the commitment-extraction getters
of the environment by any others that succeed on the same inputs (so the
commitment values, and hence whether the output commitment of one circuit
equals the input commitment of the next, are arbitrary) never changes the
function's result; broken commitment links never cause formatting to
fail. -/
theorem c3_no_commitment_chain_validation (e₁ e₂ : ZKEnv)
    (hgpd : e₂.getProofData = e₁.getProofData)
    (hnpi : e₂.getNumberOfPublicInputs = e₁.getNumberOfPublicInputs)
    (hgpc : e₂.getPackagedCircuit = e₁.getPackagedCircuit)
    (hvk : e₂.ultraVkToFields = e₁.ultraVkToFields)
    (hbig : e₂.bigIntOfString = e₁.bigIntOfString)
    (hman : e₂.getCircuitManifest = e₁.getCircuitManifest)
    (hx : ∀ pd ct, isOkB (extractCommitments e₁ pd ct) = isOkB (extractCommitments e₂ pd ct)) :
    ∀ proofs, formatProofsForContractFull e₁ proofs = formatProofsForContractFull e₂ proofs := by
  intro proofs
  unfold formatProofsForContractFull
  rw [hman]
  exact formatProofsForContract_congr e₁.getCircuitManifest
    (formatSubCircuit_subRel hgpd hnpi hgpc hvk hbig hx) proofs

/-- A small environment in which every external SDK call succeeds. -/
def zkEnvA : ZKEnv where
  getProofData := fun _ _ => some ⟨["01"], [0, 0]⟩
  getNumberOfPublicInputs := fun _ => 2
  getPackagedCircuit := fun _ _ => some ⟨some "vkblob"⟩
  ultraVkToFields := fun _ => ["01"]
  bigIntOfString := fun _ => some 1
  getCircuitManifest := fun _ => .ok ⟨"manifest"⟩
  getMerkleRootFromDSCProof := fun _ => some 1
  getCommitmentFromDSCProof := fun _ => some 1
  getCommitmentInFromIDDataProof := fun _ => some 1
  getCommitmentOutFromIDDataProof := fun _ => some 1
  getCommitmentInFromIntegrityProof := fun _ => some 1
  getCommitmentOutFromIntegrityProof := fun _ => some 1
  getCommitmentInFromDisclosureProof := fun _ => some 1
  getNullifierFromDisclosureProof := fun _ => some 1

/-- `zkEnvA` with all commitment getters replaced: every commitment link
that held in `zkEnvA` (all values 1) is broken here (distinct values). -/
def zkEnvB : ZKEnv :=
  { zkEnvA with
    getMerkleRootFromDSCProof := fun _ => some 2
    getCommitmentFromDSCProof := fun _ => some 3
    getCommitmentInFromIDDataProof := fun _ => some 4
    getCommitmentOutFromIDDataProof := fun _ => some 5
    getCommitmentInFromIntegrityProof := fun _ => some 6
    getCommitmentOutFromIntegrityProof := fun _ => some 7
    getCommitmentInFromDisclosureProof := fun _ => some 8
    getNullifierFromDisclosureProof := fun _ => some 9 }

def prWA : ProofResult := ⟨some "sig_check_dsc", some "1.0.0", some "0xproof", some "0xabc"⟩

def prWB : ProofResult := ⟨some "sig_check_id_data", some "1.0.0", some "0xproof", some "0xabc"⟩

def prWC : ProofResult := ⟨some "data_check_integrity", some "1.0.0", some "0xproof", some "0xabc"⟩

def prWD : ProofResult :=
  ⟨some "inclusion_check_issuing_country", some "1.0.0", some "0xproof", some "0xabc"⟩

def prWE : ProofResult := ⟨some "disclose_bytes", some "1.0.0", some "0xproof", some "0xabc"⟩

def prWF : ProofResult := ⟨some "compare_age", some "1.0.0", some "0xproof", some "0xabc"⟩

def proofsW : List ProofResult := [prWA, prWB, prWC, prWD, prWE, prWF]

theorem c3_no_commitment_chain_validation_witness :
    formatProofsForContractFull zkEnvA proofsW = formatProofsForContractFull zkEnvB proofsW :=
  c3_no_commitment_chain_validation zkEnvA zkEnvB rfl rfl rfl rfl rfl rfl
    (fun pd ct => by cases ct <;> rfl) proofsW

/-! ### C2: exact-length validation failures abort the sub-circuit -/

def selectCircuit (ct : CircuitType) (a b c d e f : ProofResult) : ProofResult :=
  match ct with
  | .A => a
  | .B => b
  | .C => c
  | .D => d
  | .E => e
  | .F => f

lemma validateProofData_error_of_bad_sizes
    {vkFields formatted pubs comms : List Nat} (ct : CircuitType)
    (hbad : vkFields.length ≠ VKEY_SIZE ∨ formatted.length ≠ PROOF_SIZE ∨
      (pubs.length ≠ 2 ∧ pubs.length ≠ 5 ∧ pubs.length ≠ 10) ∨ comms.length ≠ 2) :
    ∃ msg, validateProofData vkFields formatted pubs comms ct = Except.error msg ∧
      ((vkFields.length ≠ VKEY_SIZE ∧ msg = invalidVkeyMsg ct vkFields.length) ∨
       (vkFields.length = VKEY_SIZE ∧ formatted.length ≠ PROOF_SIZE ∧
         msg = invalidProofMsg ct formatted.length) ∨
       (vkFields.length = VKEY_SIZE ∧ formatted.length = PROOF_SIZE ∧
         pubs.length ≠ 2 ∧ pubs.length ≠ 5 ∧ pubs.length ≠ 10 ∧
         msg = invalidPublicInputsMsg ct pubs.length) ∨
       (vkFields.length = VKEY_SIZE ∧ formatted.length = PROOF_SIZE ∧
         (pubs.length = 2 ∨ pubs.length = 5 ∨ pubs.length = 10) ∧ comms.length ≠ 2 ∧
         msg = invalidCommitmentsMsg ct comms.length)) := by
  by_cases h1 : vkFields.length ≠ VKEY_SIZE
  · exact ⟨invalidVkeyMsg ct vkFields.length,
      by unfold validateProofData; rw [if_pos h1], Or.inl ⟨h1, rfl⟩⟩
  · push_neg at h1
    by_cases h2 : formatted.length ≠ PROOF_SIZE
    · exact ⟨invalidProofMsg ct formatted.length,
        by unfold validateProofData; rw [if_neg (by omega), if_pos h2],
        Or.inr (Or.inl ⟨h1, h2, rfl⟩)⟩
    · push_neg at h2
      by_cases h3 : pubs.length ≠ 2 ∧ pubs.length ≠ 5 ∧ pubs.length ≠ 10
      · have hc : (!([2, 5, 10].contains pubs.length)) = true := by
          simp [List.contains_cons, h3.1, h3.2.1, h3.2.2]
        exact ⟨invalidPublicInputsMsg ct pubs.length,
          by unfold validateProofData; rw [if_neg (by omega), if_neg (by omega), if_pos hc],
          Or.inr (Or.inr (Or.inl ⟨h1, h2, h3.1, h3.2.1, h3.2.2, rfl⟩))⟩
      · have hmem : pubs.length = 2 ∨ pubs.length = 5 ∨ pubs.length = 10 := by
          by_contra hcon
          push_neg at hcon
          exact h3 ⟨hcon.1, hcon.2.1, hcon.2.2⟩
        have hc : ¬((!([2, 5, 10].contains pubs.length)) = true) := by
          rcases hmem with h | h | h <;> simp [List.contains_cons, h]
        have h4 : comms.length ≠ 2 := by
          rcases hbad with hb | hb | hb | hb
          · exact absurd h1 hb
          · exact absurd h2 hb
          · exact absurd hb h3
          · exact hb
        exact ⟨invalidCommitmentsMsg ct comms.length,
          by unfold validateProofData
             rw [if_neg (by omega), if_neg (by omega), if_neg hc, if_pos h4],
          Or.inr (Or.inr (Or.inr ⟨h1, h2, hmem, h4, rfl⟩))⟩

/-- C2: for every sub-circuit being formatted, if the verification key is
not exactly 128 field elements, or the proof not exactly 456, or the
public inputs not one of sizes 2, 5, 10, or the commitments not exactly 2,
then `validateProofData` throws an error naming the offending circuit
letter and the expected versus actual length, `formatSubCircuit` fails,
and `formatProofsForContract` returns `undefined` whenever that artifact
is the one classified into the offending slot. -/
theorem c2_size_validation_rejects
    (env : ZKEnv) (manifest : CircuitManifest) (pr : ProofResult) (ct : CircuitType)
    (proofData : ProofData) (formatted vkFields : List Nat) (vkHashStr : String)
    (pubs comms : List Nat)
    (hpd : env.getProofData pr.proof (env.getNumberOfPublicInputs pr.name) = some proofData)
    (hfmt : proofToBigIntArray env proofData.proof = some formatted)
    (hvk : getCircuitVerificationKey env manifest pr = some (vkFields, vkHashStr))
    (hext : extractCommitments env proofData ct = Except.ok (pubs, comms))
    (hbad : vkFields.length ≠ VKEY_SIZE ∨ formatted.length ≠ PROOF_SIZE ∨
      (pubs.length ≠ 2 ∧ pubs.length ≠ 5 ∧ pubs.length ≠ 10) ∨ comms.length ≠ 2) :
    (∃ msg, validateProofData vkFields formatted pubs comms ct = Except.error msg ∧
      ((vkFields.length ≠ VKEY_SIZE ∧ msg = invalidVkeyMsg ct vkFields.length) ∨
       (vkFields.length = VKEY_SIZE ∧ formatted.length ≠ PROOF_SIZE ∧
         msg = invalidProofMsg ct formatted.length) ∨
       (vkFields.length = VKEY_SIZE ∧ formatted.length = PROOF_SIZE ∧
         pubs.length ≠ 2 ∧ pubs.length ≠ 5 ∧ pubs.length ≠ 10 ∧
         msg = invalidPublicInputsMsg ct pubs.length) ∨
       (vkFields.length = VKEY_SIZE ∧ formatted.length = PROOF_SIZE ∧
         (pubs.length = 2 ∨ pubs.length = 5 ∨ pubs.length = 10) ∧ comms.length ≠ 2 ∧
         msg = invalidCommitmentsMsg ct comms.length))) ∧
    formatSubCircuit env manifest pr ct = Except.error (subCircuitFailMsg ct) ∧
    (∀ proofs pA pB pC pD pE pF,
      proofs.length = 6 →
      findProofsByKeywords proofs =
        ⟨some pA, some pB, some pC, some pD, some pE, some pF⟩ →
      selectCircuit ct pA pB pC pD pE pF = pr →
      env.getCircuitManifest pA.version = Except.ok manifest →
      formatProofsForContractFull env proofs = none) := by
  have hval := validateProofData_error_of_bad_sizes ct hbad
  have hsub : formatSubCircuit env manifest pr ct = Except.error (subCircuitFailMsg ct) := by
    obtain ⟨msg, hmsg, _⟩ := hval
    unfold formatSubCircuit
    simp only [hpd, hfmt, hvk, hext, hmsg]
  refine ⟨hval, hsub, ?_⟩
  intro proofs pA pB pC pD pE pF h6 hfind hsel hman
  unfold formatProofsForContractFull formatProofsForContract
  rw [if_neg (fun hh => hh h6), hfind]
  dsimp only
  rw [hman]
  dsimp only
  cases ct with
  | A =>
    dsimp only [selectCircuit] at hsel
    subst hsel
    rw [hsub]
  | B =>
    dsimp only [selectCircuit] at hsel
    subst hsel
    rw [hsub]
    cases formatSubCircuit env manifest pA .A <;> rfl
  | C =>
    dsimp only [selectCircuit] at hsel
    subst hsel
    rw [hsub]
    cases formatSubCircuit env manifest pA .A <;>
      cases formatSubCircuit env manifest pB .B <;> rfl
  | D =>
    dsimp only [selectCircuit] at hsel
    subst hsel
    rw [hsub]
    cases formatSubCircuit env manifest pA .A <;>
      cases formatSubCircuit env manifest pB .B <;>
        cases formatSubCircuit env manifest pC .C <;> rfl
  | E =>
    dsimp only [selectCircuit] at hsel
    subst hsel
    rw [hsub]
    cases formatSubCircuit env manifest pA .A <;>
      cases formatSubCircuit env manifest pB .B <;>
        cases formatSubCircuit env manifest pC .C <;>
          cases formatSubCircuit env manifest pD .D <;> rfl
  | F =>
    dsimp only [selectCircuit] at hsel
    subst hsel
    rw [hsub]
    cases formatSubCircuit env manifest pA .A <;>
      cases formatSubCircuit env manifest pB .B <;>
        cases formatSubCircuit env manifest pC .C <;>
          cases formatSubCircuit env manifest pD .D <;>
            cases formatSubCircuit env manifest pE .E <;> rfl

theorem c2_size_validation_rejects_witness :
    formatSubCircuit zkEnvA ⟨"manifest"⟩ prWA .A = Except.error (subCircuitFailMsg .A) ∧
      formatProofsForContractFull zkEnvA proofsW = none := by
  have h := c2_size_validation_rejects zkEnvA ⟨"manifest"⟩ prWA .A
    ⟨["01"], [0, 0]⟩ [1] [1] "0xabc" [0, 0] [1, 1]
    rfl rfl rfl rfl (Or.inl (by decide))
  exact ⟨h.2.1, h.2.2 proofsW prWA prWB prWC prWD prWE prWF (by decide) (by decide) rfl rfl⟩

/-! ### Polling confirmation loop (`page.tsx`, `startPollingArbitrumMessage`) -/

/-- The `parsedData` object of a polling response, as read by the loop. -/
structure PollParsedData where
  rawData : Option (List String) := none
deriving DecidableEq, Repr

/-- The JSON body of a successful `/api/get-arbitrum-message` response,
as read by the polling loop. -/
structure PollData where
  success : Bool
  message : Option String := none
  parsedData : Option PollParsedData := none
deriving DecidableEq, Repr

/-- One poll attempt's outcome.  `failure msg` covers both a thrown
`fetch`/`json` error and a non-ok HTTP response (which the loop converts
into a thrown error whose message is `errorData.error` or
`HTTP error <status>`); `msg` is the message of the thrown `Error`. -/
inductive PollResponse
  | failure (msg : String)
  | ok (data : PollData)
deriving DecidableEq, Repr

/-- The React state touched by the polling loop.  `pollingIntervalActive`
models `pollingIntervalRef.current !== null`. -/
structure PollState where
  txStatus : String
  arbitrumMessage : Option String
  rawDataChunks : List String
  isPolling : Bool
  pollingIntervalActive : Bool
deriving DecidableEq, Repr

/-- The 32-byte all-zero hex sentinel. -/
def zeroWord : String :=
  "0x0000000000000000000000000000000000000000000000000000000000000000"

/-- The acceptance condition of the loop body:
`data.success && data.message && data.message !== "0x" && data.message !== zeroWord`
(a JS truthy check on `message` rejects `null` and `""`). -/
def acceptsMessage (data : PollData) : Bool :=
  data.success &&
    (match data.message with
     | some m => m ≠ "" && m ≠ "0x" && m ≠ zeroWord
     | none => false)

/-- One execution of the `setInterval` callback of
`startPollingArbitrumMessage` against the response it received. -/
def pollStep (st : PollState) : PollResponse → PollState
  | .failure msg =>
      { st with
          txStatus := "Error polling: " ++ msg,
          pollingIntervalActive := false,
          isPolling := false }
  | .ok data =>
      if acceptsMessage data then
        { st with
            arbitrumMessage := data.message,
            rawDataChunks :=
              match data.parsedData with
              | some pd =>
                match pd.rawData with
                | some rd => rd
                | none => st.rawDataChunks
              | none => st.rawDataChunks,
            txStatus := "Transaction data received!",
            isPolling := false,
            pollingIntervalActive := false }
      else st

/-- `startPollingArbitrumMessage`: clears any previous interval, starts a
new one, and marks the session as polling.  The `currentTxHash` argument
(or the `txHash` state as fallback) is only used to build the request
body sent to the API, which is external to this model. -/
def startPollingArbitrumMessage (st : PollState) (_currentTxHash : Option String) : PollState :=
  { st with
      pollingIntervalActive := true,
      isPolling := true,
      txStatus := st.txStatus ++ " - Polling for transaction data..." }

/-- Runs the interval callback against successive responses for as long
as the interval is active; returns the final state and the number of
poll attempts that actually executed. -/
def runPolls : PollState → List PollResponse → PollState × Nat
  | st, [] => (st, 0)
  | st, r :: rs =>
    if st.pollingIntervalActive then
      let next := runPolls (pollStep st r) rs
      (next.fst, next.snd + 1)
    else (st, 0)

/-- A response on which the loop body takes no action and keeps polling:
a non-throwing response that fails the acceptance condition. -/
def continuesPolling : PollResponse → Bool
  | .failure _ => false
  | .ok data => !(acceptsMessage data)

lemma pollStep_of_continuesPolling {r : PollResponse} (h : continuesPolling r = true)
    (st : PollState) : pollStep st r = st := by
  cases r with
  | failure msg => simp [continuesPolling] at h
  | ok data =>
    simp only [continuesPolling, Bool.not_eq_true'] at h
    simp [pollStep, h]

lemma runPolls_append_continues {pre : List PollResponse}
    (hpre : ∀ r ∈ pre, continuesPolling r = true) {st : PollState}
    (hact : st.pollingIntervalActive = true) (rest : List PollResponse) :
    runPolls st (pre ++ rest) = ((runPolls st rest).fst, (runPolls st rest).snd + pre.length) := by
  induction pre with
  | nil => simp
  | cons r pre ih =>
    have hr : continuesPolling r = true := hpre r (List.mem_cons_self r pre)
    have hpre' : ∀ x ∈ pre, continuesPolling x = true :=
      fun x hx => hpre x (List.mem_cons_of_mem r hx)
    have hih := ih hpre'
    simp only [List.cons_append, runPolls, hact, if_true, pollStep_of_continuesPolling hr,
      List.length_cons, List.append_eq]
    rw [hih, Prod.mk.injEq]
    exact ⟨rfl, by omega⟩

lemma runPolls_inactive {st : PollState} (h : st.pollingIntervalActive = false)
    (l : List PollResponse) : runPolls st l = (st, 0) := by
  cases l with
  | nil => rfl
  | cons r rs => simp [runPolls, h]

/-- C6: for every sequence of poll responses in which some poll is the
first to return a successful response with a non-empty message that is
neither `"0x"` nor the all-zero sentinel, the loop clears its interval
and stops after exactly that poll (earlier sentinel or unsuccessful
responses leave it polling), and stores exactly the received message. -/
theorem c6_polling_stops_on_first_real_message
    (st : PollState) (cth : Option String) (pre post : List PollResponse)
    (data : PollData) (m : String)
    (hpre : ∀ r ∈ pre, continuesPolling r = true)
    (hsuccess : data.success = true) (hmsg : data.message = some m)
    (hm1 : m ≠ "") (hm2 : m ≠ "0x") (hm3 : m ≠ zeroWord) :
    (runPolls (startPollingArbitrumMessage st cth)
        (pre ++ PollResponse.ok data :: post)).snd = pre.length + 1 ∧
    (runPolls (startPollingArbitrumMessage st cth)
        (pre ++ PollResponse.ok data :: post)).fst.arbitrumMessage = some m ∧
    (runPolls (startPollingArbitrumMessage st cth)
        (pre ++ PollResponse.ok data :: post)).fst.pollingIntervalActive = false ∧
    (runPolls (startPollingArbitrumMessage st cth)
        (pre ++ PollResponse.ok data :: post)).fst.isPolling = false := by
  have hacc : acceptsMessage data = true := by
    simp [acceptsMessage, hsuccess, hmsg, hm1, hm2, hm3]
  have hact : (startPollingArbitrumMessage st cth).pollingIntervalActive = true := rfl
  have hstep : pollStep (startPollingArbitrumMessage st cth) (PollResponse.ok data) =
      { startPollingArbitrumMessage st cth with
          arbitrumMessage := data.message,
          rawDataChunks :=
            match data.parsedData with
            | some pd =>
              match pd.rawData with
              | some rd => rd
              | none => (startPollingArbitrumMessage st cth).rawDataChunks
            | none => (startPollingArbitrumMessage st cth).rawDataChunks,
          txStatus := "Transaction data received!",
          isPolling := false,
          pollingIntervalActive := false } := by
    simp [pollStep, hacc]
  rw [runPolls_append_continues hpre hact]
  simp only [runPolls, hact, if_true, hstep]
  rw [runPolls_inactive rfl post]
  refine ⟨by omega, ?_, rfl, rfl⟩
  simp [hmsg]

theorem c6_polling_stops_on_first_real_message_witness :
    (runPolls
        (startPollingArbitrumMessage ⟨"", none, [], false, false⟩ (some "0xhash"))
        ([PollResponse.ok ⟨true, some "0x", none⟩, PollResponse.ok ⟨true, some zeroWord, none⟩]
          ++ PollResponse.ok ⟨true, some "0xdeadbeef", some ⟨some ["ab"]⟩⟩ ::
            [PollResponse.ok ⟨true, some "0xother", none⟩])).snd = 2 + 1 ∧
    (runPolls
        (startPollingArbitrumMessage ⟨"", none, [], false, false⟩ (some "0xhash"))
        ([PollResponse.ok ⟨true, some "0x", none⟩, PollResponse.ok ⟨true, some zeroWord, none⟩]
          ++ PollResponse.ok ⟨true, some "0xdeadbeef", some ⟨some ["ab"]⟩⟩ ::
            [PollResponse.ok ⟨true, some "0xother", none⟩])).fst.arbitrumMessage =
      some "0xdeadbeef" ∧
    (runPolls
        (startPollingArbitrumMessage ⟨"", none, [], false, false⟩ (some "0xhash"))
        ([PollResponse.ok ⟨true, some "0x", none⟩, PollResponse.ok ⟨true, some zeroWord, none⟩]
          ++ PollResponse.ok ⟨true, some "0xdeadbeef", some ⟨some ["ab"]⟩⟩ ::
            [PollResponse.ok ⟨true, some "0xother", none⟩])).fst.pollingIntervalActive = false ∧
    (runPolls
        (startPollingArbitrumMessage ⟨"", none, [], false, false⟩ (some "0xhash"))
        ([PollResponse.ok ⟨true, some "0x", none⟩, PollResponse.ok ⟨true, some zeroWord, none⟩]
          ++ PollResponse.ok ⟨true, some "0xdeadbeef", some ⟨some ["ab"]⟩⟩ ::
            [PollResponse.ok ⟨true, some "0xother", none⟩])).fst.isPolling = false :=
  c6_polling_stops_on_first_real_message ⟨"", none, [], false, false⟩ (some "0xhash")
    [PollResponse.ok ⟨true, some "0x", none⟩, PollResponse.ok ⟨true, some zeroWord, none⟩]
    [PollResponse.ok ⟨true, some "0xother", none⟩]
    ⟨true, some "0xdeadbeef", some ⟨some ["ab"]⟩⟩ "0xdeadbeef"
    (by decide) rfl rfl (by decide) (by decide) (by decide)

/-- C7: if a poll attempt throws (including the conversion of a non-ok
HTTP response into a thrown error), the loop stops immediately after that
attempt: the interval is cleared (handle nulled), `isPolling` becomes
false, the error is surfaced in the status, and no further poll attempts
execute — no retry and no backoff. -/
theorem c7_polling_stops_on_first_error
    (st : PollState) (cth : Option String) (pre post : List PollResponse) (msg : String)
    (hpre : ∀ r ∈ pre, continuesPolling r = true) :
    (runPolls (startPollingArbitrumMessage st cth)
        (pre ++ PollResponse.failure msg :: post)).snd = pre.length + 1 ∧
    (runPolls (startPollingArbitrumMessage st cth)
        (pre ++ PollResponse.failure msg :: post)).fst.pollingIntervalActive = false ∧
    (runPolls (startPollingArbitrumMessage st cth)
        (pre ++ PollResponse.failure msg :: post)).fst.isPolling = false ∧
    (runPolls (startPollingArbitrumMessage st cth)
        (pre ++ PollResponse.failure msg :: post)).fst.txStatus =
      "Error polling: " ++ msg := by
  have hact : (startPollingArbitrumMessage st cth).pollingIntervalActive = true := rfl
  rw [runPolls_append_continues hpre hact]
  simp only [runPolls, hact, if_true, pollStep]
  rw [runPolls_inactive rfl post]
  exact ⟨by omega, rfl, rfl, rfl⟩

theorem c7_polling_stops_on_first_error_witness :
    (runPolls
        (startPollingArbitrumMessage ⟨"", none, [], false, false⟩ (some "0xhash"))
        ([PollResponse.ok ⟨true, some "0x", none⟩]
          ++ PollResponse.failure "HTTP error 500" ::
            [PollResponse.ok ⟨true, some "0xdeadbeef", none⟩])).snd = 1 + 1 ∧
    (runPolls
        (startPollingArbitrumMessage ⟨"", none, [], false, false⟩ (some "0xhash"))
        ([PollResponse.ok ⟨true, some "0x", none⟩]
          ++ PollResponse.failure "HTTP error 500" ::
            [PollResponse.ok ⟨true, some "0xdeadbeef", none⟩])).fst.pollingIntervalActive =
      false ∧
    (runPolls
        (startPollingArbitrumMessage ⟨"", none, [], false, false⟩ (some "0xhash"))
        ([PollResponse.ok ⟨true, some "0x", none⟩]
          ++ PollResponse.failure "HTTP error 500" ::
            [PollResponse.ok ⟨true, some "0xdeadbeef", none⟩])).fst.isPolling = false ∧
    (runPolls
        (startPollingArbitrumMessage ⟨"", none, [], false, false⟩ (some "0xhash"))
        ([PollResponse.ok ⟨true, some "0x", none⟩]
          ++ PollResponse.failure "HTTP error 500" ::
            [PollResponse.ok ⟨true, some "0xdeadbeef", none⟩])).fst.txStatus =
      "Error polling: " ++ "HTTP error 500" :=
  c7_polling_stops_on_first_error ⟨"", none, [], false, false⟩ (some "0xhash")
    [PollResponse.ok ⟨true, some "0x", none⟩]
    [PollResponse.ok ⟨true, some "0xdeadbeef", none⟩] "HTTP error 500" (by decide)

/-! ### The `/api/get-arbitrum-message` route (`route.ts`) -/

/-- A JSON value as it may appear in the request body's `txHash` field.
Objects and arrays are collapsed to tags since the route never inspects
their contents. -/
inductive JsonVal
  | jstr (s : String)
  | jnum (n : Int)
  | jbool (b : Bool)
  | jnull
  | jarr
  | jobj
deriving DecidableEq, Repr

/-- JS truthiness of a JSON value. -/
def JsonVal.truthy : JsonVal → Bool
  | .jstr s => s ≠ ""
  | .jnum n => n ≠ 0
  | .jbool b => b
  | .jnull => false
  | .jarr => true
  | .jobj => true

/-- The parsed request body; the route destructures only `txHash`
(`let { txHash } = body`), `address` is carried but never read. -/
structure GetMessageBody where
  txHash : Option JsonVal := none
  address : Option JsonVal := none
deriving DecidableEq, Repr

/-- The `parsedData` object of a successful decode. -/
structure RouteParsedData where
  txHash : String
  amount : String
  rawData : List String
deriving DecidableEq, Repr

/-- The JSON response of the route; `none` models an absent or `null`
field.  The diagnostic `code`/`reason`/`details` fields of the error
responses are omitted. -/
structure ApiResponse where
  status : Nat
  success : Bool
  message : Option String := none
  error : Option String := none
  txHash : Option String := none
  rawResult : Option String := none
  note : Option String := none
  parsedData : Option RouteParsedData := none
deriving DecidableEq, Repr

/-- External `ethers` functionality used by the route.  `Except.error`
models a thrown exception carrying the error's message. -/
structure RouteEnv where
  contractAddress : String
  getCode : String → Except String String
  encodeFunctionData : String → Except String String
  call : String → Except String String
  decodeFunctionResult : String → Except String Nat
  bigIntOfString : String → Option Nat
  numberToString : Nat → String

/-- `to32ByteHex`: strip an optional `0x` prefix, left-pad with zeros to
64 hex characters (JS `padStart(64, "0")` leaves longer strings
unchanged), and re-attach the prefix.  It is total: it never throws. -/
def to32ByteHex (hexString : String) : String :=
  let hex := if hexString.startsWith "0x" then hexString.drop 2 else hexString
  let hex := if hex.length ≥ 64 then hex else ⟨List.replicate (64 - hex.length) '0'⟩ ++ hex
  "0x" ++ hex

/-- `if (!txHash.startsWith("0x")) txHash = "0x" + txHash`. -/
def ensure0x (s : String) : String :=
  if s.startsWith "0x" then s else "0x" ++ s

/-- `error.message || fallback` used when building error responses. -/
def errMsgOr (e fallback : String) : String :=
  if e = "" then fallback else e

def txHashRequiredResponse : ApiResponse :=
  { status := 400, success := false, error := some "Transaction hash is required" }

def invalidFormatResponse : ApiResponse :=
  { status := 400, success := false, error := some "Invalid transaction hash format" }

def noContractResponse : ApiResponse :=
  { status := 400, success := false,
    error := some "No contract deployed at the specified address" }

/-- The contract-interaction phase of the route (the body of the outer
`try` after hash normalization), taking the already `0x`-prefixed
transaction hash. -/
def contractPhase (env : RouteEnv) (txHash : String) : ApiResponse :=
  match env.getCode env.contractAddress with
  | .error e =>
    { status := 500, success := false,
      error := some ("Contract error: " ++ errMsgOr e "Unknown contract error") }
  | .ok code =>
    if code = "0x" ∨ code = "" then noContractResponse
    else
      match env.encodeFunctionData (to32ByteHex txHash) with
      | .error e =>
        { status := 500, success := false,
          error := some ("Contract error: " ++ errMsgOr e "Unknown contract error") }
      | .ok callData =>
        match env.call callData with
        | .error e =>
          { status := 500, success := false,
            error := some ("Low-level call error: " ++ errMsgOr e "Unknown error during call"),
            txHash := some txHash }
        | .ok rawResult =>
          if rawResult = "" ∨ rawResult = "0x" ∨ rawResult = zeroWord then
            { status := 200, success := true, message := none, txHash := some txHash,
              rawResult := some rawResult,
              note := some "No amount found for this transaction hash" }
          else
            match env.decodeFunctionResult rawResult with
            | .ok amount =>
              { status := 200, success := true, message := some rawResult,
                txHash := some txHash, rawResult := some rawResult,
                parsedData := some
                  { txHash := txHash, amount := env.numberToString amount,
                    rawData := [toString amount] } }
            | .error _ =>
              match env.bigIntOfString rawResult with
              | some bigIntAmount =>
                { status := 200, success := true, message := some rawResult,
                  txHash := some txHash, rawResult := some rawResult,
                  parsedData := some
                    { txHash := txHash, amount := env.numberToString bigIntAmount,
                      rawData := [toString bigIntAmount] } }
              | none =>
                { status := 200, success := true, message := some rawResult,
                  txHash := some txHash, rawResult := some rawResult,
                  parsedData := some
                    { txHash := txHash, amount := "0", rawData := [rawResult.drop 2] } }

/-- The `POST` handler of `/api/get-arbitrum-message`.  A falsy `txHash`
is rejected up front; calling `startsWith` on a truthy non-string throws
a `TypeError`, which the inner catch converts into the 400 format error;
a string `txHash` is `0x`-prefixed and forwarded (`to32ByteHex` itself
never throws). -/
def routePOST (env : RouteEnv) (body : GetMessageBody) : ApiResponse :=
  match body.txHash with
  | none => txHashRequiredResponse
  | some v =>
    if !v.truthy then txHashRequiredResponse
    else
      match v with
      | .jstr s => contractPhase env (ensure0x s)
      | _ => invalidFormatResponse

/-- C8: for every POST with a present (non-empty string) `txHash` for
which the low-level chain call returns a falsy value, `"0x"`, or the
32-byte all-zero word, the route responds HTTP 200 with `success: true`,
`message: null`, and no `parsedData`/amount. -/
theorem c8_sentinel_raw_result_yields_success_null
    (env : RouteEnv) (body : GetMessageBody) (s code callData raw : String)
    (hbody : body.txHash = some (JsonVal.jstr s)) (hs : s ≠ "")
    (hcode : env.getCode env.contractAddress = Except.ok code)
    (hc1 : ¬(code = "0x" ∨ code = ""))
    (henc : env.encodeFunctionData (to32ByteHex (ensure0x s)) = Except.ok callData)
    (hcall : env.call callData = Except.ok raw)
    (hraw : raw = "" ∨ raw = "0x" ∨ raw = zeroWord) :
    routePOST env body =
      { status := 200, success := true, message := none,
        txHash := some (ensure0x s), rawResult := some raw,
        note := some "No amount found for this transaction hash" } := by
  unfold routePOST
  rw [hbody]
  dsimp only
  rw [if_neg (by simp [JsonVal.truthy, hs])]
  unfold contractPhase
  simp only [hcode]
  rw [if_neg hc1]
  simp only [henc, hcall]
  rw [if_pos hraw]

def routeEnvW : RouteEnv where
  contractAddress := "0xcontract"
  getCode := fun _ => .ok "0x6001"
  encodeFunctionData := fun b => .ok ("call:" ++ b)
  call := fun _ => .ok "0x"
  decodeFunctionResult := fun _ => .error "no decode"
  bigIntOfString := fun _ => none
  numberToString := fun n => toString n

theorem c8_sentinel_raw_result_yields_success_null_witness :
    routePOST routeEnvW { txHash := some (JsonVal.jstr "0x1234") } =
      { status := 200, success := true, message := none,
        txHash := some (ensure0x "0x1234"), rawResult := some "0x",
        note := some "No amount found for this transaction hash" } :=
  c8_sentinel_raw_result_yields_success_null routeEnvW _ "0x1234" "0x6001"
    ("call:" ++ to32ByteHex (ensure0x "0x1234")) "0x" rfl (by decide) rfl (by decide)
    rfl rfl (Or.inr (Or.inl rfl))

/-- C9 counterexample: the claim says a body containing only an `address`
field is served rather than rejected, but the route destructures only
`txHash` and rejects such a body with HTTP 400. -/
theorem c9_counterexample_address_only_rejected :
    routePOST routeEnvW { txHash := none, address := some (JsonVal.jstr "0xd611aa") } =
      txHashRequiredResponse ∧
    txHashRequiredResponse.status = 400 ∧
    txHashRequiredResponse.success = false := ⟨rfl, rfl, rfl⟩

/-- C9 (amended): `POST /api/get-arbitrum-message` requires `txHash`; for
every body without a `txHash` (in particular one carrying only an
`address`), the route rejects the request with HTTP 400 and the error
"Transaction hash is required". -/
theorem c9_amended_txhash_required (env : RouteEnv) (addr : Option JsonVal) :
    routePOST env { txHash := none, address := addr } = txHashRequiredResponse ∧
    txHashRequiredResponse.status = 400 ∧
    txHashRequiredResponse.success = false ∧
    txHashRequiredResponse.error = some "Transaction hash is required" :=
  ⟨rfl, rfl, rfl, rfl⟩

lemma contractPhase_ne_invalidFormat (env : RouteEnv) (h : String) :
    contractPhase env h ≠ invalidFormatResponse := by
  intro hEq
  unfold contractPhase at hEq
  (repeat' split at hEq) <;>
    first
      | (have h1 := congrArg ApiResponse.status hEq
         simp [invalidFormatResponse, noContractResponse] at h1
         done)
      | (have h2 := congrArg ApiResponse.error hEq
         simp [invalidFormatResponse, noContractResponse] at h2
         done)

/-- C10: the "Invalid transaction hash format" branch is unreachable for
every string-valued `txHash`: `to32ByteHex` never throws, so any
non-empty string is forwarded into the contract-call encoding phase,
while the 400 format error is produced exactly by truthy non-string
`txHash` values. -/
theorem c10_format_error_only_for_nonstring :
    (∀ (env : RouteEnv) (body : GetMessageBody) (s : String),
      body.txHash = some (JsonVal.jstr s) →
      routePOST env body ≠ invalidFormatResponse) ∧
    (∀ (env : RouteEnv) (body : GetMessageBody) (s : String),
      body.txHash = some (JsonVal.jstr s) → s ≠ "" →
      routePOST env body = contractPhase env (ensure0x s)) ∧
    (∀ (env : RouteEnv) (body : GetMessageBody) (v : JsonVal),
      body.txHash = some v → v.truthy = true → (∀ s, v ≠ JsonVal.jstr s) →
      routePOST env body = invalidFormatResponse) := by
  refine ⟨?_, ?_, ?_⟩
  · intro env body s hbody
    by_cases hs : s = ""
    · subst hs
      unfold routePOST
      rw [hbody]
      dsimp only
      rw [if_pos (by simp [JsonVal.truthy])]
      decide
    · unfold routePOST
      rw [hbody]
      dsimp only
      rw [if_neg (by simp [JsonVal.truthy, hs])]
      exact contractPhase_ne_invalidFormat env (ensure0x s)
  · intro env body s hbody hs
    unfold routePOST
    rw [hbody]
    dsimp only
    rw [if_neg (by simp [JsonVal.truthy, hs])]
  · intro env body v hbody htr hns
    unfold routePOST
    rw [hbody]
    dsimp only
    rw [if_neg (by simp [htr])]
    cases v with
    | jstr s => exact absurd rfl (hns s)
    | jnum n => rfl
    | jbool b => rfl
    | jnull => rfl
    | jarr => rfl
    | jobj => rfl

theorem c10_format_error_only_for_nonstring_witness :
    routePOST routeEnvW { txHash := some (JsonVal.jstr "abcg123") } ≠ invalidFormatResponse ∧
    routePOST routeEnvW { txHash := some (JsonVal.jstr "abcg123") } =
      contractPhase routeEnvW (ensure0x "abcg123") ∧
    routePOST routeEnvW { txHash := some (JsonVal.jnum 7) } = invalidFormatResponse :=
  ⟨c10_format_error_only_for_nonstring.1 routeEnvW _ "abcg123" rfl,
   c10_format_error_only_for_nonstring.2.1 routeEnvW _ "abcg123" rfl (by decide),
   c10_format_error_only_for_nonstring.2.2 routeEnvW _ (JsonVal.jnum 7) rfl (by decide)
     (fun _ h => JsonVal.noConfusion h)⟩

end AztecWormhole
